import Mathlib

/-!
Shallow embedding of `react-native-draglist` (`src/index.tsx`) for checking
the natural-language specification against the code.

Coordinates (JS numbers) are modelled as rationals `ℚ`, indices as `Int`
(the refs `activeIndex`/`panIndex` hold `-1` when idle) or `ℕ` for scan
counters, keys as `String`, and the layout cache as a partial map
`String → Option PosExtent` (`hasOwnProperty` becomes `Option.isSome`).
-/

namespace DragList

/-- An item's offset and size along the scroll axis, as in `PosExtent` of
`DragListContext` (used for both `LayoutCache` entries and the container's
`flatWrapLayout`). -/
structure PosExtent where
  pos : ℚ
  extent : ℚ
deriving Repr, DecidableEq

/-- `LayoutCache`: map from item key to its last-measured `PosExtent`;
`none` models a key absent from the cache (`!layouts.hasOwnProperty(key)`). -/
def LayoutCache := String → Option PosExtent

/-- The mutable refs of `DragListImpl` that the drag-session claims are
about: `activeKey`, `activeIndex`, `panIndex`, `reorderingRef`,
`panGrantedRef`, the `pan` animated value, and the current data length
(`dataRef.current.length`, also `data.length` in `renderDragItem`). -/
structure EngineState where
  activeKey : Option String
  activeIndex : Int
  panIndex : Int
  reordering : Bool
  panGranted : Bool
  pan : ℚ
  dataLen : Nat
deriving Repr, DecidableEq

/-- `reset` (src/index.tsx lines 236-243): clears `activeIndex`,
`activeKey`, `panIndex`, zeroes the `pan` value and clears
`panGrantedRef`. It does not touch `reorderingRef`. -/
def resetState (s : EngineState) : EngineState :=
  { s with
    activeIndex := -1
    activeKey := none
    panIndex := -1
    pan := 0
    panGranted := false }

/-- The `onDragStart` closure handed to each item by `renderDragItem`
(src/index.tsx lines 257-265): guarded only by `data.length > 1`; sets
`activeIndex`, `activeKey` and `panIndex`. It does not consult
`reorderingRef`. -/
def onDragStart (s : EngineState) (key : String) (index : Int) : EngineState :=
  if 1 < s.dataLen then
    { s with
      activeIndex := index
      activeKey := some key
      panIndex := index }
  else s

/-- The four `on*ShouldSetPanResponder*` callbacks (src/index.tsx lines
114-121), all `!!activeKey.current && !reorderingRef.current`. -/
def shouldSetPanResponder (s : EngineState) : Bool :=
  s.activeKey.isSome && !s.reordering

/-- The `scrollEnabled` prop passed to the inner `FlatList`
(src/index.tsx line 353): `!activeKey.current`. -/
def scrollEnabled (s : EngineState) : Bool :=
  !s.activeKey.isSome

/-- The guard of the commit in `onPanResponderRelease` (src/index.tsx
lines 210-217): reorder only when `activeIndex !== panIndex` and not
(`activeIndex === dataRef.current.length - 1 && panIndex > activeIndex`). -/
def shouldCommit (s : EngineState) : Bool :=
  s.activeIndex != s.panIndex &&
    !(s.activeIndex == (s.dataLen : Int) - 1 && s.panIndex > s.activeIndex)

/-- Observable outcome of one run of `onPanResponderRelease`: the final
ref state, whether the caller's `onDragEnd` fired, the `(from, to)`
arguments of the `onReordered` call when one was made, and whether a
handler rejection propagated out of the (async) release handler. -/
structure ReleaseResult where
  state : EngineState
  onDragEndFired : Bool
  reorderCall : Option (Int × Int)
  rejected : Bool
deriving Repr, DecidableEq

/-- `onPanResponderRelease` (src/index.tsx lines 208-232), an async
handler, with the caller's reorder handler abstracted by whether it
rejects. Control flow of the source: `onDragEnd?.()` first; then, under
`shouldCommit`, `reorderingRef.current = true`, `await
reorderRef.current?.(activeIndex, panIndex)` inside `try`, and
`reorderingRef.current = false` in `finally`; `reset()` runs after the
`try`/`finally` statement. On a rejected `await` the `finally` clause
still clears the latch, but the rejection then propagates out of the
async function, so `reset()` is never reached on that path. -/
def releaseRun (s : EngineState) (handlerRejects : Bool) : ReleaseResult :=
  if shouldCommit s then
    let latched := { s with reordering := true }
    let unlatched := { latched with reordering := false }
    if handlerRejects then
      { state := unlatched
        onDragEndFired := true
        reorderCall := some (s.activeIndex, s.panIndex)
        rejected := true }
    else
      { state := resetState unlatched
        onDragEndFired := true
        reorderCall := some (s.activeIndex, s.panIndex)
        rejected := false }
  else
    { state := resetState s
      onDragEndFired := true
      reorderCall := none
      rejected := false }

/-- The index-resolution scan of `onPanResponderMove` (src/index.tsx
lines 181-191): starting at `curIndex = 0`, advance while the index is in
range, the item's key has a `LayoutCache` entry, and
`layouts[key].pos + layouts[key].extent < clientPos`; the resulting
`curIndex` is the resolved index. The data sequence is modelled by its
list of keys (`keyExtractor` applied to each element). -/
def resolveIndex (layouts : LayoutCache) (clientPos : ℚ) : List String → ℕ
  | [] => 0
  | key :: rest =>
    match layouts key with
    | none => 0
    | some pe =>
      if pe.pos + pe.extent < clientPos then resolveIndex layouts clientPos rest + 1
      else 0

/-- Outcome of the pan-index update at the end of `onPanResponderMove`
(src/index.tsx lines 200-205): the new `panIndex` and the argument of the
`onHoverChanged` call when one was made. -/
structure MoveResult where
  panIndex : Int
  hoverCall : Option ℕ
deriving Repr, DecidableEq

/-- The pan-index update of `onPanResponderMove` (src/index.tsx lines
200-205): `panIndex.current = curIndex` unconditionally; `setExtra` and
`hoverRef.current?.(curIndex)` fire when `panIndex.current != curIndex`. -/
def moveUpdate (prevPanIndex : Int) (layouts : LayoutCache) (clientPos : ℚ)
    (keys : List String) : MoveResult :=
  let curIndex := resolveIndex layouts clientPos keys
  { panIndex := (curIndex : Int)
    hoverCall := if prevPanIndex != (curIndex : Int) then some curIndex else none }

/-- The auto-scroll offset computation of `onPanResponderMove`
(src/index.tsx lines 153-168): `leadingEdge = wrapPos - extent/2`,
`trailingEdge = wrapPos + extent/2`; if `leadingEdge < 0`, offset is
`-extent` when `scrollPos >= extent` and `-scrollPos` otherwise; else if
`trailingEdge > flatWrapLayout.extent`, offset is
`scrollPos + extent`; else `0`. -/
def autoScrollOffset (wrapPos viewportExtent scrollPos dragItemExtent : ℚ) : ℚ :=
  let leadingEdge := wrapPos - dragItemExtent / 2
  let trailingEdge := wrapPos + dragItemExtent / 2
  if leadingEdge < 0 then
    if scrollPos ≥ dragItemExtent then -dragItemExtent else -scrollPos
  else if trailingEdge > viewportExtent then
    scrollPos + dragItemExtent
  else 0

/-- The scroll request issued by `onPanResponderMove` (src/index.tsx
lines 170-175): when the computed offset is nonzero,
`scrollToOffset({ offset: scrollPos.current + offset })`; otherwise no
request. Returns the requested target offset. -/
def autoScrollRequest (wrapPos viewportExtent scrollPos dragItemExtent : ℚ) :
    Option ℚ :=
  let offset := autoScrollOffset wrapPos viewportExtent scrollPos dragItemExtent
  if offset ≠ 0 then some (scrollPos + offset) else none

/-- A write to `flatWrapLayout` (the ViewportFrame): either the
container-layout path `onDragLayout` (src/index.tsx lines 306-320), which
stores both `pos` and `extent` from a fresh measure, or the drag-grant
path `onPanResponderGrant` (lines 130-141), which spreads the old value
and overwrites `pos` only. -/
inductive FrameEvent where
  | layout (pos extent : ℚ)
  | grant (pos : ℚ)
deriving Repr, DecidableEq

/-- Effect of one `FrameEvent` on `flatWrapLayout`:
`layout` stores `{ pos, extent }`; `grant` performs
`{ ...flatWrapLayout.current, pos }`. -/
def frameStep (fw : PosExtent) : FrameEvent → PosExtent
  | .layout p e => { pos := p, extent := e }
  | .grant p => { fw with pos := p }

/-- Action applied to a cell's `anim` value by the `CellRendererComponent`
effects: an `Animated.timing` toward a target over `SLIDE_MILLIS`, or an
immediate `setValue`. -/
inductive AnimAction where
  | timing (target : ℚ)
  | set (target : ℚ)
deriving Repr, DecidableEq

/-- The displacement effect of `CellRendererComponent` (src/index.tsx
lines 391-417) for the cell with key `key` at `index`. With an active
drag whose key is measured and for a non-active cell: timing to
`+layouts[activeKey].extent` when `index >= panIndex && index <=
activeIndex`, else timing to `-extent` when `index >= activeIndex &&
index <= panIndex`; every other path falls through to
`setIsOffset(false)`, whose companion effect (lines 419-428) runs a
timing back to `0`; with no active drag the effect does
`anim.setValue(0)` directly. -/
def cellAnim (activeKey : Option String) (key : String) (layouts : LayoutCache)
    (index panIndex activeIndex : Int) : AnimAction :=
  match activeKey with
  | none => .set 0
  | some ak =>
    match layouts ak with
    | some pe =>
      if key = ak then .timing 0
      else if panIndex ≤ index ∧ index ≤ activeIndex then .timing pe.extent
      else if activeIndex ≤ index ∧ index ≤ panIndex then .timing (-pe.extent)
      else .timing 0
    | none => .timing 0

end DragList

namespace DragList

/-- A concrete layout cache used for concrete evaluations: items `"a"` at
`[0, 50)` and `"b"` at `[50, 100)` are measured; every other key (such as
`"c"`) has no entry. -/
def layoutsAB : LayoutCache := fun k =>
  if k = "a" then some { pos := 0, extent := 50 }
  else if k = "b" then some { pos := 50, extent := 50 }
  else none

/-- Evaluation of `layoutsAB` at `"a"`. -/
lemma layoutsAB_a : layoutsAB "a" = some { pos := 0, extent := 50 } := rfl

/-- Evaluation of `layoutsAB` at `"b"`. -/
lemma layoutsAB_b : layoutsAB "b" = some { pos := 50, extent := 50 } := rfl

/-- Evaluation of `layoutsAB` at `"c"`: unmeasured. -/
lemma layoutsAB_c : layoutsAB "c" = none := rfl

/-- C1 counterexample: with the commit latch held (`reordering = true`)
and a two-element list, firing `onDragStart` still arms the session —
`activeKey` becomes set, contrary to the claim that drag-start signals
are ignored entirely while the latch is held. -/
theorem C1_dragStart_arms_despite_latch :
    ({ activeKey := none, activeIndex := -1, panIndex := -1,
       reordering := true, panGranted := false, pan := 0,
       dataLen := 2 } : EngineState).reordering = true ∧
    (onDragStart
      { activeKey := none, activeIndex := -1, panIndex := -1,
        reordering := true, panGranted := false, pan := 0, dataLen := 2 }
      "a" 0).activeKey = some "a" ∧
    (onDragStart
      { activeKey := none, activeIndex := -1, panIndex := -1,
        reordering := true, panGranted := false, pan := 0, dataLen := 2 }
      "a" 0).activeIndex = 0 := by
  refine ⟨rfl, ?_, ?_⟩ <;> rfl

/-- C1 (amended): while the commit latch is held the pan-responder
should-set callbacks all return false (so the gesture is never captured),
but `onDragStart` itself is not guarded by the latch: on a list with more
than one element it still arms the session, setting `activeKey`,
`activeIndex` and `panIndex`. -/
theorem C1_latch_blocks_capture_not_arming (s : EngineState) (key : String)
    (index : Int) (hlatch : s.reordering = true) (hlen : 1 < s.dataLen) :
    shouldSetPanResponder s = false ∧
    (onDragStart s key index).activeKey = some key ∧
    (onDragStart s key index).activeIndex = index ∧
    (onDragStart s key index).panIndex = index := by
  refine ⟨?_, ?_, ?_, ?_⟩ <;> simp [shouldSetPanResponder, onDragStart, hlatch, hlen]

/-- C1 witness: the amended theorem applied at a concrete latched state. -/
theorem C1_witness :
    ({ activeKey := none, activeIndex := -1, panIndex := -1,
       reordering := true, panGranted := false, pan := 0,
       dataLen := 3 } : EngineState).reordering = true ∧
    1 < ({ activeKey := none, activeIndex := -1, panIndex := -1,
           reordering := true, panGranted := false, pan := 0,
           dataLen := 3 } : EngineState).dataLen ∧
    (shouldSetPanResponder
        { activeKey := none, activeIndex := -1, panIndex := -1,
          reordering := true, panGranted := false, pan := 0,
          dataLen := 3 } = false ∧
      (onDragStart
          { activeKey := none, activeIndex := -1, panIndex := -1,
            reordering := true, panGranted := false, pan := 0, dataLen := 3 }
          "b" 1).activeKey = some "b" ∧
      (onDragStart
          { activeKey := none, activeIndex := -1, panIndex := -1,
            reordering := true, panGranted := false, pan := 0, dataLen := 3 }
          "b" 1).activeIndex = 1 ∧
      (onDragStart
          { activeKey := none, activeIndex := -1, panIndex := -1,
            reordering := true, panGranted := false, pan := 0, dataLen := 3 }
          "b" 1).panIndex = 1) :=
  ⟨rfl, by decide,
    C1_latch_blocks_capture_not_arming
      { activeKey := none, activeIndex := -1, panIndex := -1,
        reordering := true, panGranted := false, pan := 0, dataLen := 3 }
      "b" 1 rfl (by decide)⟩

/-- C2 counterexample: a completed drag from index 0 to index 1 whose
handler rejects: the rejection propagates and the latch is cleared, but
the session is not reset — `activeKey` is still `some "a"`, contrary to
the claim that the session is always reset to Idle. -/
theorem C2_reject_leaves_session_armed :
    (releaseRun
        { activeKey := some "a", activeIndex := 0, panIndex := 1,
          reordering := false, panGranted := true, pan := 7, dataLen := 2 }
        true).rejected = true ∧
    (releaseRun
        { activeKey := some "a", activeIndex := 0, panIndex := 1,
          reordering := false, panGranted := true, pan := 7, dataLen := 2 }
        true).state.reordering = false ∧
    (releaseRun
        { activeKey := some "a", activeIndex := 0, panIndex := 1,
          reordering := false, panGranted := true, pan := 7, dataLen := 2 }
        true).state.activeKey = some "a" := by
  refine ⟨rfl, rfl, ?_⟩; rfl

/-- C2 (amended): when the reorder handler of a committing release
rejects, the rejection propagates uncaught, `onDragEnd` still fires and
the commit latch is still cleared by the `finally` clause, but `reset()`
is skipped: the session state is exactly the pre-release state with the
latch cleared (`activeKey`, `activeIndex`, `panIndex`, `pan` and
`panGranted` all unchanged), so the session is reset only when the
handler fulfills or when no handler is invoked. -/
theorem C2_reject_clears_latch_skips_reset (s : EngineState)
    (hc : shouldCommit s = true) :
    (releaseRun s true).rejected = true ∧
    (releaseRun s true).onDragEndFired = true ∧
    (releaseRun s true).state = { s with reordering := false } := by
  simp [releaseRun, hc]

/-- C2 witness: the amended theorem applied at a concrete committing
state. -/
theorem C2_witness :
    shouldCommit
      { activeKey := some "a", activeIndex := 0, panIndex := 1,
        reordering := false, panGranted := true, pan := 7,
        dataLen := 2 } = true ∧
    ((releaseRun
        { activeKey := some "a", activeIndex := 0, panIndex := 1,
          reordering := false, panGranted := true, pan := 7, dataLen := 2 }
        true).rejected = true ∧
      (releaseRun
          { activeKey := some "a", activeIndex := 0, panIndex := 1,
            reordering := false, panGranted := true, pan := 7, dataLen := 2 }
          true).onDragEndFired = true ∧
      (releaseRun
          { activeKey := some "a", activeIndex := 0, panIndex := 1,
            reordering := false, panGranted := true, pan := 7, dataLen := 2 }
          true).state =
        { activeKey := some "a", activeIndex := 0, panIndex := 1,
          reordering := false, panGranted := true, pan := 7, dataLen := 2 }) :=
  ⟨by decide,
    C2_reject_clears_latch_skips_reset
      { activeKey := some "a", activeIndex := 0, panIndex := 1,
        reordering := false, panGranted := true, pan := 7, dataLen := 2 }
      (by decide)⟩

/-- The Boolean commit guard, restated as the proposition it decides. -/
lemma shouldCommit_eq_true_iff (s : EngineState) :
    shouldCommit s = true ↔
      (s.activeIndex ≠ s.panIndex ∧
        ¬(s.activeIndex = (s.dataLen : Int) - 1 ∧ s.panIndex > s.activeIndex)) := by
  simp only [shouldCommit, Bool.and_eq_true, bne_iff_ne, Bool.not_eq_true',
    Bool.and_eq_false_iff]
  constructor
  · rintro ⟨h1, h2⟩
    refine ⟨h1, ?_⟩
    rintro ⟨he, hp⟩
    rcases h2 with h2 | h2
    · rw [beq_eq_false_iff_ne] at h2; exact h2 he
    · rw [decide_eq_false_iff_not] at h2; exact h2 hp
  · rintro ⟨h1, h2⟩
    refine ⟨h1, ?_⟩
    by_cases he : s.activeIndex = (s.dataLen : Int) - 1
    · right; rw [decide_eq_false_iff_not]; intro hp; exact h2 ⟨he, hp⟩
    · left; rw [beq_eq_false_iff_ne]; exact he

/-- C3: on release, the reorder handler is invoked, with arguments
`(activeIndex, panIndex)`, exactly when `activeIndex ≠ panIndex` and it
is not the case that `activeIndex` is the last index with
`panIndex > activeIndex`; in the excluded cases no call is made. This
holds whether the handler fulfills or rejects. -/
theorem C3_reorder_emitted_iff (s : EngineState) (handlerRejects : Bool) :
    (releaseRun s handlerRejects).reorderCall =
      if s.activeIndex ≠ s.panIndex ∧
          ¬(s.activeIndex = (s.dataLen : Int) - 1 ∧ s.panIndex > s.activeIndex)
        then some (s.activeIndex, s.panIndex)
        else none := by
  by_cases h : s.activeIndex ≠ s.panIndex ∧
      ¬(s.activeIndex = (s.dataLen : Int) - 1 ∧ s.panIndex > s.activeIndex)
  · rw [if_pos h]
    have hc : shouldCommit s = true := (shouldCommit_eq_true_iff s).mpr h
    cases handlerRejects <;> simp [releaseRun, hc]
  · rw [if_neg h]
    have hc : shouldCommit s = false := by
      cases hsc : shouldCommit s
      · rfl
      · exact absurd ((shouldCommit_eq_true_iff s).mp hsc) h
    cases handlerRejects <;> simp [releaseRun, hc]

/-- C9: the drag-grant measurement writes only `pos` of the viewport
frame, leaving `extent` exactly as it was, while the container-layout
path is the one that writes both fields; hence a grant-time reading can
never overwrite a previously measured extent. -/
theorem C9_grant_updates_pos_only (fw : PosExtent) (p pl el : ℚ) :
    frameStep fw (.grant p) = { pos := p, extent := fw.extent } ∧
    frameStep fw (.layout pl el) = { pos := pl, extent := el } :=
  ⟨rfl, rfl⟩

/-- C10: the list's `scrollEnabled` prop is false exactly when a drag
session is active (`activeKey` set), and after `reset` it is true again. -/
theorem C10_scroll_disabled_iff_active (s : EngineState) :
    (scrollEnabled s = false ↔ s.activeKey.isSome = true) ∧
    scrollEnabled (resetState s) = true := by
  cases h : s.activeKey <;>
    simp [scrollEnabled, resetState, h]

end DragList

namespace DragList

/-- Scanning past a block of measured items whose trailing edges are all
strictly below the client position advances the resolved index by the
length of the block. -/
lemma resolveIndex_append_measured (front tail : List String)
    (layouts : LayoutCache) (c : ℚ)
    (hfront : ∀ k ∈ front, ∃ q, layouts k = some q ∧ q.pos + q.extent < c) :
    resolveIndex layouts c (front ++ tail) =
      front.length + resolveIndex layouts c tail := by
  induction front with
  | nil => simp
  | cons a as ih =>
    obtain ⟨q, hq, hlt⟩ := hfront a (List.mem_cons_self a as)
    have ih' := ih (fun k hk => hfront k (List.mem_cons_of_mem a hk))
    have hstep : ∀ l, resolveIndex layouts c (a :: l) =
        resolveIndex layouts c l + 1 := fun l => by
      simp [resolveIndex, hq, hlt]
    rw [List.cons_append, hstep (as ++ tail), ih', List.length_cons]
    omega

/-- C4 counterexample: with items `"a"` on `[0, 50)` and `"b"` on
`[50, 100)`, resolving the client position `50` — exactly the trailing
boundary `pos + extent` of item `"a"` — returns index 0 (item `"a"`
itself), not index 1 as the claim states. -/
theorem C4_boundary_stays_on_item :
    resolveIndex layoutsAB 50 ["a", "b"] = 0 ∧
    ¬ resolveIndex layoutsAB 50 ["a", "b"] = 1 := by
  constructor
  · simp [resolveIndex, layoutsAB]
  · simp [resolveIndex, layoutsAB]

/-- C4 (amended): resolving a client position `c` that exactly equals
`pos + extent` of an item returns that item's own index, not the next
one: the scan advances only on strict inequality `pos + extent < c`, so
it halts at the boundary item and the trailing boundary belongs to the
item above (open-closed interval semantics). -/
theorem C4_boundary_belongs_to_item_above (front : List String) (key : String)
    (rest : List String) (layouts : LayoutCache) (pe : PosExtent) (c : ℚ)
    (hfront : ∀ k ∈ front, ∃ q, layouts k = some q ∧ q.pos + q.extent < c)
    (hk : layouts key = some pe) (hb : pe.pos + pe.extent = c) :
    resolveIndex layouts c (front ++ key :: rest) = front.length := by
  rw [resolveIndex_append_measured front _ layouts c hfront]
  simp [resolveIndex, hk, hb]

/-- C4 witness: the amended theorem applied with `"a"` on `[0, 50)`
measured below the boundary and `"b"` on `[50, 100)` whose trailing edge
is exactly the client position `100`. -/
theorem C4_witness :
    (∀ k ∈ ["a"], ∃ q, layoutsAB k = some q ∧ q.pos + q.extent < (100 : ℚ)) ∧
    layoutsAB "b" = some { pos := 50, extent := 50 } ∧
    (50 : ℚ) + 50 = 100 ∧
    resolveIndex layoutsAB 100 (["a"] ++ "b" :: []) = (["a"] : List String).length := by
  have hfront : ∀ k ∈ ["a"], ∃ q, layoutsAB k = some q ∧
      q.pos + q.extent < (100 : ℚ) := by
    intro k hk
    simp only [List.mem_singleton] at hk
    subst hk
    exact ⟨{ pos := 0, extent := 50 }, rfl, by norm_num⟩
  exact ⟨hfront, rfl, by norm_num,
    C4_boundary_belongs_to_item_above ["a"] "b" [] layoutsAB
      { pos := 50, extent := 50 } 100 hfront rfl (by norm_num)⟩

/-- C5: evaluating the pointer-move auto-scroll at wrap position 90,
viewport extent 100, scroll offset 100 and item extent 50: the trailing
edge (115) exceeds the viewport extent, and the issued request targets
offset 250 — `scrollPos + (scrollPos + extent)` — not
`scrollPos + extent = 150` as the claim states: the trailing-edge branch
adds the current scroll offset into the relative offset, which the
request then adds to the scroll offset again. -/
theorem C5_trailing_request_adds_scrollPos_twice :
    autoScrollRequest 90 100 100 50 = some 250 ∧
    ¬ autoScrollRequest 90 100 100 50 = some (100 + 50) := by
  constructor
  · norm_num [autoScrollRequest, autoScrollOffset]
  · norm_num [autoScrollRequest, autoScrollOffset]

/-- C6 counterexample: `"a"` and `"b"` are measured with trailing edges
below the client position 500 but `"c"` has no cache entry; with previous
`panIndex = 0`, the move handler sets `panIndex` to 2 (the index at which
the scan halted) and fires a hover notification, instead of retaining the
previous value 0 as the claim states. -/
theorem C6_unmeasured_overwrites_panIndex :
    layoutsAB "c" = none ∧
    moveUpdate 0 layoutsAB 500 ["a", "b", "c"] =
      { panIndex := 2, hoverCall := some 2 } := by
  constructor
  · rfl
  · norm_num [moveUpdate, resolveIndex, layoutsAB_a, layoutsAB_b, layoutsAB_c]

/-- C6 (amended): when the scan reaches an item whose key has no
`LayoutCache` entry, resolution halts at that item's index, and `panIndex`
is overwritten with that halt index (the first unmeasured index) rather
than retaining its previous value. -/
theorem C6_halts_at_first_unmeasured (front : List String) (key : String)
    (rest : List String) (layouts : LayoutCache) (c : ℚ) (prev : Int)
    (hfront : ∀ k ∈ front, ∃ q, layouts k = some q ∧ q.pos + q.extent < c)
    (hk : layouts key = none) :
    resolveIndex layouts c (front ++ key :: rest) = front.length ∧
    (moveUpdate prev layouts c (front ++ key :: rest)).panIndex =
      (front.length : Int) := by
  have h1 : resolveIndex layouts c (front ++ key :: rest) = front.length := by
    rw [resolveIndex_append_measured front _ layouts c hfront]
    simp [resolveIndex, hk]
  exact ⟨h1, by simp [moveUpdate, h1]⟩

/-- C6 witness: the amended theorem applied with `"a"`, `"b"` measured
below the client position 500, `"c"` unmeasured, and previous
`panIndex = 0`. -/
theorem C6_witness :
    (∀ k ∈ ["a", "b"], ∃ q, layoutsAB k = some q ∧ q.pos + q.extent < (500 : ℚ)) ∧
    layoutsAB "c" = none ∧
    (resolveIndex layoutsAB 500 (["a", "b"] ++ "c" :: []) =
        (["a", "b"] : List String).length ∧
      (moveUpdate 0 layoutsAB 500 (["a", "b"] ++ "c" :: [])).panIndex =
        ((["a", "b"] : List String).length : Int)) := by
  have hfront : ∀ k ∈ ["a", "b"], ∃ q, layoutsAB k = some q ∧
      q.pos + q.extent < (500 : ℚ) := by
    intro k hk
    simp only [List.mem_cons, List.mem_singleton, List.not_mem_nil, or_false] at hk
    rcases hk with rfl | rfl
    · exact ⟨{ pos := 0, extent := 50 }, rfl, by norm_num⟩
    · exact ⟨{ pos := 50, extent := 50 }, rfl, by norm_num⟩
  exact ⟨hfront, rfl,
    C6_halts_at_first_unmeasured ["a", "b"] "c" [] layoutsAB 500 0 hfront rfl⟩

/-- C7: on a list whose keys are all measured, the index resolver is
monotone in the client position: a lower client position never resolves
to a higher index. -/
theorem C7_resolve_monotone (keys : List String) (layouts : LayoutCache)
    (c1 c2 : ℚ) (hmeas : ∀ k ∈ keys, (layouts k).isSome = true)
    (h12 : c1 < c2) :
    resolveIndex layouts c1 keys ≤ resolveIndex layouts c2 keys := by
  induction keys with
  | nil => simp [resolveIndex]
  | cons k rest ih =>
    obtain ⟨pe, hpe⟩ :=
      Option.isSome_iff_exists.mp (hmeas k (List.mem_cons_self k rest))
    have ih' := ih (fun x hx => hmeas x (List.mem_cons_of_mem k hx))
    simp only [resolveIndex, hpe]
    split_ifs with h1 h2
    · exact Nat.succ_le_succ ih'
    · exact absurd (lt_trans h1 h12) h2
    · exact Nat.zero_le _
    · exact Nat.zero_le _

/-- C7 witness: monotonicity applied on the fully measured two-item list
at client positions 30 < 120. -/
theorem C7_witness :
    (∀ k ∈ ["a", "b"], (layoutsAB k).isSome = true) ∧ (30 : ℚ) < 120 ∧
    resolveIndex layoutsAB 30 ["a", "b"] ≤ resolveIndex layoutsAB 120 ["a", "b"] := by
  have hmeas : ∀ k ∈ ["a", "b"], (layoutsAB k).isSome = true := by
    intro k hk
    simp only [List.mem_cons, List.mem_singleton, List.not_mem_nil, or_false] at hk
    rcases hk with rfl | rfl <;> rfl
  exact ⟨hmeas, by norm_num,
    C7_resolve_monotone ["a", "b"] layoutsAB 30 120 hmeas (by norm_num)⟩

/-- C8: for a non-active cell while a drag is active and the active key
is measured, the displacement target is `+extent` when
`panIndex ≤ index ≤ activeIndex`, else `-extent` when
`activeIndex ≤ index ≤ panIndex`, else an animated return to 0; and with
no active drag the value is set to 0 directly (no animation). -/
theorem C8_displacement_targets (ak key : String) (layouts : LayoutCache)
    (pe : PosExtent) (i p a : Int)
    (hmeas : layouts ak = some pe) (hkey : key ≠ ak) :
    ((p ≤ i ∧ i ≤ a) → cellAnim (some ak) key layouts i p a = .timing pe.extent) ∧
    (¬(p ≤ i ∧ i ≤ a) → (a ≤ i ∧ i ≤ p) →
      cellAnim (some ak) key layouts i p a = .timing (-pe.extent)) ∧
    (¬(p ≤ i ∧ i ≤ a) → ¬(a ≤ i ∧ i ≤ p) →
      cellAnim (some ak) key layouts i p a = .timing 0) ∧
    cellAnim none key layouts i p a = .set 0 := by
  refine ⟨?_, ?_, ?_, rfl⟩
  · intro h1
    simp [cellAnim, hmeas, hkey, h1]
  · intro h1 h2
    simp [cellAnim, hmeas, hkey, h1, h2]
  · intro h1 h2
    simp [cellAnim, hmeas, hkey, h1, h2]

/-- C8 witness: the displacement rules applied at the measured active key
`"a"` with a non-active cell `"b"` at index 1 between `panIndex = 1` and
`activeIndex = 2`, and the no-drag snap to 0. -/
theorem C8_witness :
    layoutsAB "a" = some { pos := 0, extent := 50 } ∧ "b" ≠ "a" ∧
    cellAnim (some "a") "b" layoutsAB 1 1 2 = .timing 50 ∧
    cellAnim none "b" layoutsAB 1 1 2 = .set 0 := by
  refine ⟨rfl, by decide, ?_, ?_⟩
  · exact (C8_displacement_targets "a" "b" layoutsAB { pos := 0, extent := 50 }
      1 1 2 rfl (by decide)).1 ⟨by norm_num, by norm_num⟩
  · exact (C8_displacement_targets "a" "b" layoutsAB { pos := 0, extent := 50 }
      1 1 2 rfl (by decide)).2.2.2

end DragList
